import Mathlib

/-!
Verification of the gmail-cleaner repository core:
the SSRF URL validator (app/services/gmail/helpers.py),
the header extractors (helpers.py and gmail_api_unsubscribe.py),
the aggregation pipeline (gmail_api_unsubscribe.py, scan_emails_api),
and the two unsubscribe executors (app/services/gmail/unsubscribe.py and
gmail_api_unsubscribe.py, unsubscribe_single).

External collaborators (urlparse, socket.getaddrinfo, ipaddress.ip_address,
the HTTP client) are modelled as oracle function parameters; the control flow
of the repository functions themselves is translated faithfully.
-/

set_option autoImplicit false

namespace GmailCleaner

/-- Result of Python urlparse, restricted to the two fields the validator
reads: the scheme and the optional hostname. -/
structure ParsedURL where
  scheme : String
  hostname : Option String
deriving DecidableEq

/-- Classification flags of one resolved address, as computed by the
ipaddress module (an external collaborator, modelled abstractly). -/
structure IPInfo where
  is_private : Bool
  is_loopback : Bool
  is_link_local : Bool
  is_unspecified : Bool
deriving DecidableEq

/-- The restricted-range test of helpers.py lines 65-70:
private, loopback, link-local or unspecified. -/
def IPInfo.restricted (i : IPInfo) : Bool :=
  i.is_private || i.is_loopback || i.is_link_local || i.is_unspecified

/-- The ValueError cases raised by validate_unsafe_url, one constructor per
distinct message raised in helpers.py lines 34-89. -/
inductive ValError where
  | invalidFormat
  | disallowedScheme
  | noHostname
  | invalidOrRestrictedIP (ip : String)
  | noUsableAddresses (hostname : String)
  | unresolvedHostname (hostname : String)
deriving DecidableEq

/-- The per-address loop of helpers.py lines 57-76: returns the first
address string that fails (unparsable by ip_address, or restricted),
or none when every address passes. -/
def checkAddrs (ip_address : String → Option IPInfo) : List String → Option String
  | [] => none
  | s :: rest =>
    match ip_address s with
    | none => some s
    | some info => if info.restricted then some s else checkAddrs ip_address rest

/-- helpers.py validate_unsafe_url (lines 14-89).  urlparse failure is
modelled as the parse oracle returning none; socket.getaddrinfo is the
getaddrinfo oracle (error = socket.gaierror, ok = the list of resolved
address strings); ipaddress.ip_address is the ip_address oracle (none =
ValueError on parse).  The Python code re-wraps both a malformed and a
restricted address into the same "Invalid or restricted IP address" error
naming the address, which invalidOrRestrictedIP models. -/
def validate_unsafe_url (parse : String → Option ParsedURL)
    (getaddrinfo : String → Except Unit (List String))
    (ip_address : String → Option IPInfo)
    (url : String) : Except ValError String :=
  match parse url with
  | none => .error .invalidFormat
  | some parsed =>
    if parsed.scheme = "http" || parsed.scheme = "https" then
      match parsed.hostname with
      | none => .error .noHostname
      | some hostname =>
        if hostname = "" then .error .noHostname
        else
          match getaddrinfo hostname with
          | .error _ => .error (.unresolvedHostname hostname)
          | .ok addrs =>
            match checkAddrs ip_address addrs with
            | some s => .error (.invalidOrRestrictedIP s)
            | none =>
              if addrs.isEmpty then .error (.noUsableAddresses hostname)
              else .ok url
    else .error .disallowedScheme

theorem checkAddrs_none_iff (ipp : String → Option IPInfo) (addrs : List String) :
    checkAddrs ipp addrs = none ↔
      ∀ s ∈ addrs, ∃ i, ipp s = some i ∧ i.restricted = false := by
  induction addrs with
  | nil => simp [checkAddrs]
  | cons a rest ih =>
    simp only [checkAddrs]
    cases h : ipp a with
    | none => simp [h]
    | some i =>
      by_cases hr : i.restricted = true
      · simp [h, hr]
      · dsimp only
        rw [if_neg hr, ih, List.forall_mem_cons]
        simp [h]
        intro _
        cases hb : i.restricted
        · rfl
        · exact absurd hb hr

theorem checkAddrs_finds_offender (ipp : String → Option IPInfo) (addrs : List String)
    (hall : ∀ s ∈ addrs, ∃ i, ipp s = some i)
    (hbad : ∃ s ∈ addrs, ∃ i, ipp s = some i ∧ i.restricted = true) :
    ∃ s ∈ addrs, checkAddrs ipp addrs = some s ∧
      ∃ i, ipp s = some i ∧ i.restricted = true := by
  induction addrs with
  | nil => simp at hbad
  | cons a rest ih =>
    obtain ⟨ia, hia⟩ := hall a (by simp)
    by_cases hr : ia.restricted = true
    · exact ⟨a, by simp, by simp [checkAddrs, hia, hr], ia, hia, hr⟩
    · have hbad' : ∃ s ∈ rest, ∃ i, ipp s = some i ∧ i.restricted = true := by
        rcases hbad with ⟨s, hs, i, hi, hri⟩
        rcases List.mem_cons.mp hs with h | h
        · subst h; rw [hia] at hi; cases hi; exact absurd hri hr
        · exact ⟨s, h, i, hi, hri⟩
      obtain ⟨s, hs, hfind, hinfo⟩ :=
        ih (fun s hs => hall s (List.mem_cons_of_mem _ hs)) hbad'
      refine ⟨s, List.mem_cons_of_mem _ hs, ?_, hinfo⟩
      simpa [checkAddrs, hia, hr] using hfind
theorem validate_reduces_to_addr_check
    (parse : String → Option ParsedURL) (gai : String → Except Unit (List String))
    (ipp : String → Option IPInfo) (url : String) (p : ParsedURL)
    (hostname : String) (addrs : List String)
    (hp : parse url = some p)
    (hs : p.scheme = "http" ∨ p.scheme = "https")
    (hh : p.hostname = some hostname) (hne : hostname ≠ "")
    (hres : gai hostname = .ok addrs) :
    validate_unsafe_url parse gai ipp url =
      (match checkAddrs ipp addrs with
       | some s => .error (.invalidOrRestrictedIP s)
       | none =>
         if addrs.isEmpty then .error (.noUsableAddresses hostname)
         else .ok url) := by
  have hsb : (p.scheme = "http" || p.scheme = "https") = true := by
    rcases hs with h | h <;> simp [h]
  simp [validate_unsafe_url, hp, hsb, hh, hne, hres]

/-- C1: whenever the hostname of an otherwise well-formed http(s) URL
resolves to a set of addresses of which at least one is private-use,
loopback, link-local or unspecified, validate_unsafe_url fails with the
restricted-address error naming an offending address, and validation
returns ok (with the URL unchanged) only when every resolved address is
classified safe. -/
theorem c1_all_resolved_addresses_must_pass
    (parse : String → Option ParsedURL) (gai : String → Except Unit (List String))
    (ipp : String → Option IPInfo) (url : String) (p : ParsedURL)
    (hostname : String) (addrs : List String)
    (hp : parse url = some p)
    (hs : p.scheme = "http" ∨ p.scheme = "https")
    (hh : p.hostname = some hostname) (hne : hostname ≠ "")
    (hres : gai hostname = .ok addrs) :
    ((∀ s ∈ addrs, ∃ i, ipp s = some i) →
      (∃ s ∈ addrs, ∃ i, ipp s = some i ∧ i.restricted = true) →
      ∃ s ∈ addrs, (∃ i, ipp s = some i ∧ i.restricted = true) ∧
        validate_unsafe_url parse gai ipp url = .error (.invalidOrRestrictedIP s))
    ∧ (∀ u, validate_unsafe_url parse gai ipp url = .ok u →
        u = url ∧ ∀ s ∈ addrs, ∃ i, ipp s = some i ∧ i.restricted = false) := by
  have hred := validate_reduces_to_addr_check parse gai ipp url p hostname addrs
    hp hs hh hne hres
  constructor
  · intro hall hbad
    obtain ⟨s, hmem, hfind, hinfo⟩ := checkAddrs_finds_offender ipp addrs hall hbad
    refine ⟨s, hmem, hinfo, ?_⟩
    rw [hred, hfind]
  · intro u hu
    rw [hred] at hu
    cases hc : checkAddrs ipp addrs with
    | some s => rw [hc] at hu; cases hu
    | none =>
      rw [hc] at hu
      by_cases he : addrs.isEmpty
      · rw [if_pos he] at hu; cases hu
      · rw [if_neg he] at hu
        cases hu
        exact ⟨rfl, (checkAddrs_none_iff ipp addrs).mp hc⟩

/-- Oracle returning a fixed parse result with an http scheme, standing for
urlparse on a URL whose host resolves to a private address. -/
def parse_priv : String → Option ParsedURL :=
  fun _ => some ⟨"http", some "internal.example"⟩

/-- Resolver oracle returning one private and one public address. -/
def gai_priv : String → Except Unit (List String) :=
  fun _ => .ok ["10.0.0.5", "203.0.113.7"]

/-- Address-classification oracle: 10.0.0.5 private, 203.0.113.7 public. -/
def ipp_priv : String → Option IPInfo := fun s =>
  if s = "10.0.0.5" then some ⟨true, false, false, false⟩
  else if s = "203.0.113.7" then some ⟨false, false, false, false⟩
  else none

theorem c1_all_resolved_addresses_must_pass_witness :
    ∃ s ∈ ["10.0.0.5", "203.0.113.7"],
      (∃ i, ipp_priv s = some i ∧ i.restricted = true) ∧
      validate_unsafe_url parse_priv gai_priv ipp_priv "http://internal.example/x"
        = .error (.invalidOrRestrictedIP s) :=
  (c1_all_resolved_addresses_must_pass parse_priv gai_priv ipp_priv
      "http://internal.example/x" ⟨"http", some "internal.example"⟩
      "internal.example" ["10.0.0.5", "203.0.113.7"]
      rfl (Or.inl rfl) rfl (by decide) rfl).1
    (by
      intro s hs
      cases hs with
      | head => exact ⟨⟨true, false, false, false⟩, rfl⟩
      | tail _ hs2 =>
        cases hs2 with
        | head => exact ⟨⟨false, false, false, false⟩, rfl⟩
        | tail _ hs3 => cases hs3)
    ⟨"10.0.0.5", by exact List.mem_cons_self _ _,
      ⟨⟨true, false, false, false⟩, rfl, rfl⟩⟩

/-- C4: a URL parsing to any scheme other than http or https is rejected
with the disallowed-scheme error; the result does not depend on the
resolver oracles at all, so no resolution step is reached. -/
theorem c4_disallowed_scheme_short_circuit
    (parse : String → Option ParsedURL) (gai : String → Except Unit (List String))
    (ipp : String → Option IPInfo) (url : String) (p : ParsedURL)
    (hp : parse url = some p) (h1 : p.scheme ≠ "http") (h2 : p.scheme ≠ "https") :
    validate_unsafe_url parse gai ipp url = .error .disallowedScheme := by
  have hsb : (p.scheme = "http" || p.scheme = "https") = false := by
    simp [h1, h2]
  simp [validate_unsafe_url, hp, hsb]

/-- Parse oracle standing for urlparse of a file: URL. -/
def parse_file : String → Option ParsedURL :=
  fun _ => some ⟨"file", some "internal.example"⟩

theorem c4_disallowed_scheme_short_circuit_witness :
    validate_unsafe_url parse_file gai_priv ipp_priv "file:///etc/passwd"
      = .error .disallowedScheme :=
  c4_disallowed_scheme_short_circuit parse_file gai_priv ipp_priv
    "file:///etc/passwd" ⟨"file", some "internal.example"⟩
    rfl (by decide) (by decide)

/-- Python str.lower restricted to character-wise lowering, defined over
the character list so that concrete instances evaluate in the kernel. -/
def strLower (s : String) : String := String.mk (s.data.map Char.toLower)

/-- Python str.startswith, defined over the character lists. -/
def strStarts (s p : String) : Bool := p.data.isPrefixOf s.data

/-- Python slicing s[:n], defined over the character lists. -/
def strTake (s : String) (n : Nat) : String := String.mk (s.data.take n)

/-- Python exception classes relevant to the unsubscribe executors:
ValueError (raised by the validator), the URLError / HTTPError /
TimeoutError family raised by urlopen, and any other Exception subclass. -/
inductive PyExc where
  | valueError (msg : String)
  | urlError (msg : String)
  | otherError (msg : String)
deriving DecidableEq

/-- str(e) of a modelled exception. -/
def excMsg : PyExc → String
  | .valueError m => m
  | .urlError m => m
  | .otherError m => m

/-- Behavior of one urlopen call: either a response with a status code, or
a raised exception. -/
inductive HttpOutcome where
  | resp (status : Nat)
  | exc (e : PyExc)
deriving DecidableEq

/-- One network request issued through urllib. -/
inductive Request where
  | post (url : String)
  | get (url : String)
deriving DecidableEq

/-- The result dict of app/services/gmail/unsubscribe.py, with its optional
keys: rtype models the "type" key (set only for mailto links) and domain
the "domain" key (set only on the success returns). -/
structure UnsubResult where
  success : Bool
  message : String
  rtype : Option String
  domain : Option String
deriving DecidableEq

/-- Status codes accepted by the POST branch (unsubscribe.py line 52). -/
def postOkSet : List Nat := [200, 201, 202, 204]

/-- Status codes accepted by the GET fallback (unsubscribe.py line 77). -/
def getOkSet : List Nat := [200, 201, 202, 204, 301, 302]

/-- The GET fallback of unsubscribe.py lines 69-88.  The inner handler
catches only the URLError family; any other exception escapes this block
(as the .error case) toward the outer handler.  The request log records
the GET attempt. -/
def unsub_get (vlink domain : String) (getOut : HttpOutcome) (log : List Request) :
    Except PyExc UnsubResult × List Request :=
  match getOut with
  | .resp s =>
    if s ∈ getOkSet then
      (.ok ⟨true, "Unsubscribed (confirmation may be needed)", none, some domain⟩,
        log ++ [.get vlink])
    else
      (.ok ⟨false, "Server returned status " ++ toString s, none, none⟩,
        log ++ [.get vlink])
  | .exc (.urlError m) =>
      (.ok ⟨false, "Failed to unsubscribe: " ++ m, none, none⟩, log ++ [.get vlink])
  | .exc e => (.error e, log ++ [.get vlink])

/-- The body of the outer try of unsubscribe.py lines 29-88: validation,
POST attempt, GET fallback.  A ValueError from the validator is caught at
line 33 and turned into the Security Error result; any other exception
from the validator escapes.  Every exception of the POST attempt is caught
(lines 58-67) and falls through to the GET. -/
def unsub_try_body (validate : String → Except PyExc String)
    (postOut getOut : HttpOutcome) (domain link : String) :
    Except PyExc UnsubResult × List Request :=
  match validate link with
  | .error (.valueError m) =>
      (.ok ⟨false, "Security Error: " ++ m, none, none⟩, [])
  | .error e => (.error e, [])
  | .ok vlink =>
    match postOut with
    | .resp s =>
      if s ∈ postOkSet then
        (.ok ⟨true, "Unsubscribed successfully", none, some domain⟩, [.post vlink])
      else
        unsub_get vlink domain getOut [.post vlink]
    | .exc _ => unsub_get vlink domain getOut [.post vlink]

/-- app/services/gmail/unsubscribe.py unsubscribe_single (lines 16-91).
The final Except layer is the interface to the caller: .error would mean
an exception escaping the function.  The outer except Exception handler
(line 90) converts every escaped exception into a failure result with the
message truncated to 100 characters. -/
def unsubscribe_single (validate : String → Except PyExc String)
    (postOut getOut : HttpOutcome) (domain link : String) :
    Except PyExc (UnsubResult × List Request) :=
  if link = "" then
    .ok (⟨false, "No unsubscribe link provided", none, none⟩, [])
  else if strStarts link "mailto:" then
    .ok (⟨false, "Email-based unsubscribe - open in email client", some "mailto", none⟩, [])
  else
    match unsub_try_body validate postOut getOut domain link with
    | (.ok r, log) => .ok (r, log)
    | (.error e, log) => .ok (⟨false, strTake (excMsg e) 100, none, none⟩, log)

/-- Behavior of the single urlopen call of the legacy executor in
gmail_api_unsubscribe.py: a readable response body, an HTTPError with a
status code, or any other exception. -/
inductive ApiHttpOutcome where
  | content (body : String)
  | httpError (code : Nat)
  | exc (msg : String)
deriving DecidableEq

/-- Substring containment over character lists, modelling the Python
expression word in content. -/
def containsSub (needle : List Char) : List Char → Bool
  | [] => needle.isEmpty
  | c :: rest => needle.isPrefixOf (c :: rest) || containsSub needle rest

/-- gmail_api_unsubscribe.py line 296. -/
def success_words : List String :=
  ["unsubscribed", "removed", "success", "confirmed", "you have been", "opt out"]

/-- The result dict of the legacy executor: keys success and status. -/
structure ApiResult where
  success : Bool
  status : String
deriving DecidableEq

/-- gmail_api_unsubscribe.py unsubscribe_single (lines 281-306): issues a
GET directly, with no URL validation of any kind; classifies by response
body keywords, HTTPError redirect codes, or exception text.  The request
log records the GET, which is attempted for every link. -/
def api_unsubscribe_single (out : ApiHttpOutcome) (domain link : String) :
    ApiResult × List Request :=
  match out with
  | .content body =>
    let content := strLower body
    if success_words.any (fun w => containsSub w.data content.data) then
      (⟨true, "Unsubscribed!"⟩, [.get link])
    else
      (⟨true, "Link visited"⟩, [.get link])
  | .httpError code =>
    if code ∈ [301, 302, 303, 307, 308] then
      (⟨true, "Redirected"⟩, [.get link])
    else
      (⟨false, "HTTP " ++ toString code⟩, [.get link])
  | .exc msg => (⟨false, strTake msg 30⟩, [.get link])

/-- Parse oracle standing for urlparse of a URL with loopback host. -/
def parse_loop : String → Option ParsedURL :=
  fun _ => some ⟨"http", some "127.0.0.1"⟩

/-- Resolver oracle for the loopback host. -/
def gai_loop : String → Except Unit (List String) :=
  fun _ => .ok ["127.0.0.1"]

/-- Classification oracle: 127.0.0.1 is private and loopback. -/
def ipp_loop : String → Option IPInfo := fun s =>
  if s = "127.0.0.1" then some ⟨true, true, false, false⟩ else none

/-- C2 counterexample: the repository also exposes the legacy executor of
gmail_api_unsubscribe.py, which never calls the validator: for the link
http://127.0.0.1/x, which validate_unsafe_url rejects as a restricted
address, the legacy executor still issues the GET request and even
reports success.  So it is not true of the program that a
validator-rejected link never produces a network request. -/
theorem c2_counterexample_legacy_executor_skips_validation :
    validate_unsafe_url parse_loop gai_loop ipp_loop "http://127.0.0.1/x"
      = .error (.invalidOrRestrictedIP "127.0.0.1")
    ∧ (api_unsubscribe_single (.content "You have been unsubscribed") "d"
        "http://127.0.0.1/x").2 = [.get "http://127.0.0.1/x"]
    ∧ (api_unsubscribe_single (.content "You have been unsubscribed") "d"
        "http://127.0.0.1/x").1.success = true := by
  refine ⟨rfl, rfl, ?_⟩
  decide

/-- C2 amended: for the service executor of
app/services/gmail/unsubscribe.py the claim holds: a link whose
validation raises ValueError yields a failure result carrying the
validator reason behind the Security Error marker with an empty request
log, and a nonempty request log can only arise after the validator
accepted the link.  (The legacy executor of gmail_api_unsubscribe.py
performs no validation, see the counterexample.) -/
theorem c2_service_security_gate
    (validate : String → Except PyExc String) (postOut getOut : HttpOutcome)
    (domain link : String) :
    (∀ m, link ≠ "" → strStarts link "mailto:" = false →
      validate link = .error (.valueError m) →
      unsubscribe_single validate postOut getOut domain link
        = .ok (⟨false, "Security Error: " ++ m, none, none⟩, []))
    ∧ (∀ r log, unsubscribe_single validate postOut getOut domain link = .ok (r, log) →
        log ≠ [] → ∃ v, validate link = .ok v) := by
  constructor
  · intro m h1 h2 h3
    simp [unsubscribe_single, h1, h2, unsub_try_body, h3]
  · intro r log hrun hlog
    cases hv : validate link with
    | ok v => exact ⟨v, rfl⟩
    | error e =>
      exfalso
      apply hlog
      by_cases h1 : link = ""
      · simp [unsubscribe_single, h1] at hrun
        exact hrun.2
      · by_cases h2 : strStarts link "mailto:"
        · simp [unsubscribe_single, h1, h2] at hrun
          exact hrun.2
        · cases e with
          | valueError m =>
            simp [unsubscribe_single, h1, h2, unsub_try_body, hv] at hrun
            exact hrun.2
          | urlError m =>
            simp [unsubscribe_single, h1, h2, unsub_try_body, hv] at hrun
            exact hrun.2
          | otherError m =>
            simp [unsubscribe_single, h1, h2, unsub_try_body, hv] at hrun
            exact hrun.2

/-- Rejecting validator oracle used to witness the security gate. -/
def validate_reject : String → Except PyExc String :=
  fun _ => .error (.valueError "Blocked restricted IP: 10.0.0.5")

theorem c2_service_security_gate_witness :
    unsubscribe_single validate_reject (.resp 200) (.resp 200)
        "shop.example" "http://evil.example/u"
      = .ok (⟨false, "Security Error: Blocked restricted IP: 10.0.0.5", none, none⟩, []) :=
  (c2_service_security_gate validate_reject (.resp 200) (.resp 200)
      "shop.example" "http://evil.example/u").1
    "Blocked restricted IP: 10.0.0.5" (by decide) (by decide) rfl

/-- C5: for every validator behavior and every behavior of the two HTTP
calls, including raised exceptions of every class, the service executor
returns an ok result to its caller; an exception escaping the inner try
body is converted by the outer handler into a failure result with the
truncated exception text. -/
theorem c5_executor_never_raises
    (validate : String → Except PyExc String) (postOut getOut : HttpOutcome)
    (domain link : String) :
    (∃ r, unsubscribe_single validate postOut getOut domain link = .ok r)
    ∧ (∀ e log, link ≠ "" → strStarts link "mailto:" = false →
        unsub_try_body validate postOut getOut domain link = (.error e, log) →
        unsubscribe_single validate postOut getOut domain link
          = .ok (⟨false, strTake (excMsg e) 100, none, none⟩, log)) := by
  constructor
  · by_cases h1 : link = ""
    · exact ⟨(⟨false, "No unsubscribe link provided", none, none⟩, []),
        by simp [unsubscribe_single, h1]⟩
    · by_cases h2 : strStarts link "mailto:"
      · exact ⟨(⟨false, "Email-based unsubscribe - open in email client",
            some "mailto", none⟩, []),
          by simp [unsubscribe_single, h1, h2]⟩
      · cases hb : unsub_try_body validate postOut getOut domain link with
        | mk res log =>
          cases res with
          | ok r => exact ⟨(r, log), by simp [unsubscribe_single, h1, h2, hb]⟩
          | error e =>
            exact ⟨(⟨false, strTake (excMsg e) 100, none, none⟩, log),
              by simp [unsubscribe_single, h1, h2, hb]⟩
  · intro e log h1 h2 hb
    simp [unsubscribe_single, h1, h2, hb]

/-- Validator oracle raising a non-ValueError exception. -/
def validate_raise : String → Except PyExc String :=
  fun _ => .error (.otherError "boom")

theorem c5_executor_never_raises_witness :
    unsubscribe_single validate_raise (.resp 200) (.resp 200) "d" "http://x.example/"
      = .ok (⟨false, "boom", none, none⟩, []) :=
  (c5_executor_never_raises validate_raise (.resp 200) (.resp 200)
      "d" "http://x.example/").2
    (.otherError "boom") [] (by decide) (by decide) rfl

/-- Validator oracle that accepts every link unchanged. -/
def validate_id : String → Except PyExc String := fun l => .ok l

/-- C6 counterexample: in the GET fallback a 301 response produces exactly
the same result as a 200 response, a success with the confirmation
message; there is no distinct redirected classification. -/
theorem c6_counterexample_redirect_not_distinct :
    unsubscribe_single validate_id (.exc (.urlError "timeout")) (.resp 301)
        "d" "http://a.example/u"
      = unsubscribe_single validate_id (.exc (.urlError "timeout")) (.resp 200)
        "d" "http://a.example/u"
    ∧ unsubscribe_single validate_id (.exc (.urlError "timeout")) (.resp 301)
        "d" "http://a.example/u"
      = .ok (⟨true, "Unsubscribed (confirmation may be needed)", none, some "d"⟩,
          [.post "http://a.example/u", .get "http://a.example/u"]) :=
  ⟨rfl, rfl⟩

/-- C6 amended: in the GET fallback every status among
200, 201, 202, 204, 301, 302 yields the same success result with the
confirmation message (301 and 302 are not distinguished from the 2xx
statuses), and any other status yields a failure result carrying the
status code. -/
theorem c6_get_fallback_classification
    (validate : String → Except PyExc String) (postOut : HttpOutcome)
    (domain link vlink : String) (s : Nat)
    (h1 : link ≠ "") (h2 : strStarts link "mailto:" = false)
    (hv : validate link = .ok vlink)
    (hpost : ∀ c, postOut = .resp c → c ∉ postOkSet) :
    unsubscribe_single validate postOut (.resp s) domain link
      = .ok (if s ∈ getOkSet then
               (⟨true, "Unsubscribed (confirmation may be needed)", none, some domain⟩,
                 [.post vlink, .get vlink])
             else
               (⟨false, "Server returned status " ++ toString s, none, none⟩,
                 [.post vlink, .get vlink])) := by
  cases postOut with
  | resp c =>
    have hc : c ∉ postOkSet := hpost c rfl
    by_cases hg : s ∈ getOkSet
    · simp [unsubscribe_single, h1, h2, unsub_try_body, hv, hc, unsub_get, hg]
    · simp [unsubscribe_single, h1, h2, unsub_try_body, hv, hc, unsub_get, hg]
  | exc e =>
    by_cases hg : s ∈ getOkSet
    · simp [unsubscribe_single, h1, h2, unsub_try_body, hv, unsub_get, hg]
    · simp [unsubscribe_single, h1, h2, unsub_try_body, hv, unsub_get, hg]

theorem c6_get_fallback_classification_witness :
    unsubscribe_single validate_id (.exc (.urlError "t")) (.resp 404)
        "d" "http://a.example/u"
      = .ok (⟨false, "Server returned status 404", none, none⟩,
          [.post "http://a.example/u", .get "http://a.example/u"]) := by
  have h := c6_get_fallback_classification validate_id (.exc (.urlError "t"))
    "d" "http://a.example/u" "http://a.example/u" 404
    (by decide) (by decide) rfl (by intro c hc; cases hc)
  simpa using h

/-- C10: the empty-string link is handled exactly like an absent link:
the executor returns the no-link failure result without consulting the
validator (the result is the same for every validator oracle) and
without issuing any request. -/
theorem c10_empty_link_short_circuit
    (validate : String → Except PyExc String) (postOut getOut : HttpOutcome)
    (domain : String) :
    unsubscribe_single validate postOut getOut domain ""
      = .ok (⟨false, "No unsubscribe link provided", none, none⟩, []) := by
  simp [unsubscribe_single]

/-- One email header as handled by the extractors: a name and a value. -/
structure Header where
  name : String
  value : String
deriving DecidableEq

/-- Splits a character list at the first closing angle bracket: returns
the characters before it and the characters after it, or none when no
closing bracket exists. -/
def takeUntilGt : List Char → Option (List Char × List Char)
  | [] => none
  | c :: cs =>
    if c = '>' then some ([], cs)
    else
      match takeUntilGt cs with
      | some (b, r) => some (c :: b, r)
      | none => none

/-- One match attempt of the regex at a position just after an opening
angle bracket: the value must start with one of the scheme markers, then
run to the next closing bracket with a nonempty remainder.  Returns the
captured URI and the characters after the closing bracket. -/
def matchAfterLt (markers : List String) (cs : List Char) : Option (String × List Char) :=
  match markers.find? (fun p => p.data.isPrefixOf cs) with
  | none => none
  | some p =>
    match takeUntilGt (cs.drop p.data.length) with
    | none => none
    | some (body, rest) =>
      if body.isEmpty then none else some (p ++ String.mk body, rest)

/-- Left-to-right non-overlapping scan of re.findall for the patterns of
helpers.py lines 153-163: an opening angle bracket, a scheme marker, one
or more non-bracket characters, a closing bracket.  The fuel starts at
the length of the list; every step consumes at least one character while
spending exactly one unit of fuel, so the fuel never runs out before the
list does. -/
def scanAux (markers : List String) : Nat → List Char → List String
  | 0, _ => []
  | _, [] => []
  | fuel + 1, c :: rest =>
    if c = '<' then
      match matchAfterLt markers rest with
      | some (cap, rest2) => cap :: scanAux markers fuel rest2
      | none => scanAux markers fuel rest
    else scanAux markers fuel rest

/-- re.findall of the angle-bracketed http(s) URL pattern. -/
def findall_http (s : String) : List String :=
  scanAux ["https://", "http://"] s.data.length s.data

/-- re.findall of the angle-bracketed mailto URI pattern. -/
def findall_mailto (s : String) : List String :=
  scanAux ["mailto:"] s.data.length s.data

/-- The inner loop of helpers.py lines 150-155: a one-click header
anywhere in the full header set. -/
def hasPost (headers : List Header) : Bool :=
  headers.any (fun h => strLower h.name = "list-unsubscribe-post")

/-- The outer loop of helpers.py get_unsubscribe_from_headers: the full
original header list is carried along because the one-click check always
scans the whole set.  On a list-unsubscribe header whose value yields an
http(s) URL, the mode is one-click when a post header exists anywhere and
manual otherwise; with no http(s) URL but a mailto URI the mode is manual
as well; with neither, the loop moves to the next header. -/
def unsub_loop (all : List Header) : List Header → Option String × Option String
  | [] => (none, none)
  | h :: rest =>
    if strLower h.name = "list-unsubscribe" then
      match findall_http h.value with
      | u :: _ =>
        if hasPost all then (some u, some "one-click") else (some u, some "manual")
      | [] =>
        match findall_mailto h.value with
        | m :: _ => (some m, some "manual")
        | [] => unsub_loop all rest
    else unsub_loop all rest

/-- helpers.py get_unsubscribe_from_headers (lines 143-167). -/
def get_unsubscribe_from_headers (headers : List Header) : Option String × Option String :=
  unsub_loop headers headers

/-- C3 counterexample: a header set whose single list-unsubscribe value
holds only a mailto URI yields mode "manual", not a distinct mode
"mailto" as the claim states. -/
theorem c3_counterexample_mailto_mode_is_manual :
    get_unsubscribe_from_headers [⟨"List-Unsubscribe", "<mailto:foo@bar.example>"⟩]
      = (some "mailto:foo@bar.example", some "manual")
    ∧ some "manual" ≠ some "mailto" := by
  constructor
  · decide
  · decide

/-- A header qualifies for extraction when it is named list-unsubscribe
(case-insensitively) and its value yields an angle-bracketed http(s) URL
or mailto URI; the loop of helpers.py 145-167 returns at the first such
header and moves past every other one. -/
def yieldsLink (h : Header) : Bool :=
  decide (strLower h.name = "list-unsubscribe") &&
    (!(findall_http h.value).isEmpty || !(findall_mailto h.value).isEmpty)

theorem unsub_loop_first (all : List Header) (l : List Header) (h : Header)
    (hf : l.find? yieldsLink = some h) :
    (∀ u us, findall_http h.value = u :: us →
      unsub_loop all l
        = (some u, some (if hasPost all then "one-click" else "manual")))
    ∧ (findall_http h.value = [] → ∀ m ms, findall_mailto h.value = m :: ms →
      unsub_loop all l = (some m, some "manual")) := by
  induction l with
  | nil => simp at hf
  | cons a rest ih =>
    by_cases hq : yieldsLink a = true
    · rw [List.find?_cons_of_pos _ hq] at hf
      cases hf
      have ha : strLower h.name = "list-unsubscribe" :=
        of_decide_eq_true ((Bool.and_eq_true _ _).mp hq).1
      constructor
      · intro u us hu
        by_cases hp : hasPost all
        · simp [unsub_loop, ha, hu, hp]
        · simp [unsub_loop, ha, hu, hp]
      · intro hu m ms hm
        simp [unsub_loop, ha, hu, hm]
    · rw [List.find?_cons_of_neg _ hq] at hf
      have hrest := ih hf
      by_cases ha : strLower a.name = "list-unsubscribe"
      · have hboth : findall_http a.value = [] ∧ findall_mailto a.value = [] := by
          rcases hh : findall_http a.value with _ | ⟨u, us⟩
          · rcases hm : findall_mailto a.value with _ | ⟨m, ms⟩
            · exact ⟨rfl, rfl⟩
            · exact absurd (by simp [yieldsLink, ha, hm]) hq
          · exact absurd (by simp [yieldsLink, ha, hh]) hq
        have heq : unsub_loop all (a :: rest) = unsub_loop all rest := by
          simp [unsub_loop, ha, hboth.1, hboth.2]
        rw [heq]
        exact hrest
      · have heq : unsub_loop all (a :: rest) = unsub_loop all rest := by
          simp [unsub_loop, ha]
        rw [heq]
        exact hrest

theorem unsub_loop_none (all : List Header) (l : List Header)
    (hnone : ∀ h ∈ l, strLower h.name = "list-unsubscribe" →
      findall_http h.value = [] ∧ findall_mailto h.value = []) :
    unsub_loop all l = (none, none) := by
  induction l with
  | nil => rfl
  | cons a rest ih =>
    by_cases ha : strLower a.name = "list-unsubscribe"
    · obtain ⟨h1, h2⟩ := hnone a (by simp) ha
      rw [unsub_loop, if_pos ha, h1, h2]
      exact ih (fun h hh => hnone h (List.mem_cons_of_mem _ hh))
    · rw [unsub_loop, if_neg ha]
      exact ih (fun h hh => hnone h (List.mem_cons_of_mem _ hh))

/-- C3 amended: the extracted affordance of the first list-unsubscribe
header that yields a link (list-unsubscribe headers yielding neither an
http(s) URL nor a mailto URI are passed over by the loop) is: when its
value holds an angle-bracketed http(s) URL, that first URL with mode
one-click if a list-unsubscribe-post header occurs anywhere in the set
and manual otherwise; when it holds no http(s) URL but a mailto URI,
that first mailto URI with mode manual (the code never produces a mailto
mode); and when no list-unsubscribe header yields either, the result is
(none, none). -/
theorem c3_affordance_modes (headers : List Header) :
    (∀ h, headers.find? yieldsLink = some h →
      (∀ u us, findall_http h.value = u :: us →
        get_unsubscribe_from_headers headers
          = (some u, some (if hasPost headers then "one-click" else "manual")))
      ∧ (findall_http h.value = [] → ∀ m ms, findall_mailto h.value = m :: ms →
        get_unsubscribe_from_headers headers = (some m, some "manual")))
    ∧ ((∀ h ∈ headers, strLower h.name = "list-unsubscribe" →
        findall_http h.value = [] ∧ findall_mailto h.value = []) →
      get_unsubscribe_from_headers headers = (none, none)) :=
  ⟨fun h hf => unsub_loop_first headers headers h hf,
   fun hnone => unsub_loop_none headers headers hnone⟩

/-- Concrete header set for the one-click case: a link header together
with a post header elsewhere in the set. -/
def hdrs_oneclick : List Header :=
  [⟨"List-Unsubscribe", "<https://ex.example/u>, <mailto:a@b.example>"⟩,
   ⟨"List-Unsubscribe-Post", "List-Unsubscribe=One-Click"⟩]

theorem c3_affordance_modes_witness :
    get_unsubscribe_from_headers hdrs_oneclick
      = (some "https://ex.example/u", some "one-click") := by
  have h := ((c3_affordance_modes hdrs_oneclick).1
    ⟨"List-Unsubscribe", "<https://ex.example/u>, <mailto:a@b.example>"⟩
    (by decide)).1 "https://ex.example/u" [] (by decide)
  have hp : hasPost hdrs_oneclick = true := by decide
  rw [hp] at h
  simpa using h

/-- gmail_api_unsubscribe.py get_unsubscribe_from_headers (lines 132-145):
the variant returning only the link, with the mailto URI as fallback. -/
def api_unsub_loop : List Header → Option String
  | [] => none
  | h :: rest =>
    if strLower h.name = "list-unsubscribe" then
      match findall_http h.value with
      | u :: _ => some u
      | [] =>
        match findall_mailto h.value with
        | m :: _ => some m
        | [] => api_unsub_loop rest
    else api_unsub_loop rest

/-- gmail_api_unsubscribe.py get_unsubscribe_from_headers entry point. -/
def api_get_unsubscribe_from_headers (headers : List Header) : Option String :=
  api_unsub_loop headers

/-- The character class of the email regex in gmail_api_unsubscribe.py
line 154, restricted to ASCII word characters (the repository only deals
with ASCII header content in the properties considered here). -/
def isWchar (c : Char) : Bool := c.isAlphanum || c = '_' || c = '.' || c = '-'

/-- re.search of the email-shaped pattern of line 154: the first position
where a run of word/dot/dash characters is followed by an at sign and a
nonempty second run.  Returns the two runs.  A failed attempt restarts
one character later, which matches the regex engine because the class
does not contain the at sign, so no backtracking can shorten a run. -/
def emailSearch : List Char → Option (List Char × List Char)
  | [] => none
  | c :: rest =>
    if isWchar c then
      match ((c :: rest).span isWchar).2 with
      | '@' :: after2 =>
        if (after2.span isWchar).1.isEmpty then emailSearch rest
        else some (((c :: rest).span isWchar).1, (after2.span isWchar).1)
      | _ => emailSearch rest
    else emailSearch rest

/-- gmail_api_unsubscribe.py get_sender_info (lines 148-159): the raw
from value and the lower-cased part after the at sign, or the sentinel
pair when no from header holds an email-shaped token. -/
def api_get_sender_info : List Header → String × String
  | [] => ("", "unknown")
  | h :: rest =>
    if strLower h.name = "from" then
      match emailSearch h.value.data with
      | some (_, domPart) => (h.value, strLower (String.mk domPart))
      | none => api_get_sender_info rest
    else api_get_sender_info rest

/-- gmail_api_unsubscribe.py get_subject (lines 162-167): first subject
value truncated to 60 characters, or the empty string. -/
def api_get_subject : List Header → String
  | [] => ""
  | h :: rest =>
    if strLower h.name = "subject" then strTake h.value 60
    else api_get_subject rest

/-- One bucket of the senders_data defaultdict (lines 201-206).  The
Python links set is modelled as an insertion-ordered duplicate-free
list; no property proved here depends on the iteration order of the
set. -/
structure SenderEntry where
  count : Nat
  links : List String
  subjects : List String
  fromv : String
deriving DecidableEq

/-- set.add on the modelled link set. -/
def setAdd (l : List String) (x : String) : List String :=
  if x ∈ l then l else l ++ [x]

/-- The mutations of lines 228-232 on the defaultdict: find or create the
domain bucket, increment its count, add the link, replace the from value,
and append the subject while fewer than three are stored. -/
def bump : List (String × SenderEntry) → String → String → String → String →
    List (String × SenderEntry)
  | [], d, link, fv, sj => [(d, ⟨1, [link], [sj], fv⟩)]
  | (d2, e) :: rest, d, link, fv, sj =>
    if d2 = d then
      (d2, ⟨e.count + 1, setAdd e.links link,
        if e.subjects.length < 3 then e.subjects ++ [sj] else e.subjects, fv⟩) :: rest
    else (d2, e) :: bump rest d link fv sj

/-- The batch callback process_message of lines 213-232: a fetch
exception (none) skips the message, a message without an extracted link
starting with http is discarded, and a qualifying message is accumulated
into its sender-domain bucket. -/
def process_message (data : List (String × SenderEntry)) (resp : Option (List Header)) :
    List (String × SenderEntry) :=
  match resp with
  | none => data
  | some headers =>
    match api_get_unsubscribe_from_headers headers with
    | none => data
    | some link =>
      if strStarts link "http" then
        bump data (api_get_sender_info headers).2 link
          (api_get_sender_info headers).1 (api_get_subject headers)
      else data

/-- An entry of the scan_results list (lines 265-271). -/
structure Opportunity where
  domain : String
  count : Nat
  fromv : String
  link : String
  subjects : List String
deriving DecidableEq

/-- Stable insertion keeping descending counts; a new element goes after
every element whose count is at least its own. -/
def insertByCountDesc (x : String × SenderEntry) :
    List (String × SenderEntry) → List (String × SenderEntry)
  | [] => [x]
  | y :: ys => if y.2.count < x.2.count then x :: y :: ys else y :: insertByCountDesc x ys

/-- The stable descending sort of line 260 (sorted by count,
reverse=True): inserting the buckets in their original order keeps
equal-count buckets in first-seen order. -/
def sortByCountDesc (l : List (String × SenderEntry)) : List (String × SenderEntry) :=
  l.foldl (fun acc x => insertByCountDesc x acc) []

/-- The emission loop of lines 262-271: for each bucket, the links that
start with http; buckets without one are skipped, the others produce one
Opportunity carrying the first such link. -/
def emitOpps : List (String × SenderEntry) → List Opportunity
  | [] => []
  | (d, e) :: rest =>
    match e.links.filter (fun l => strStarts l "http") with
    | [] => emitOpps rest
    | l :: _ => ⟨d, e.count, e.fromv, l, e.subjects⟩ :: emitOpps rest

/-- The aggregation part of scan_emails_api (lines 201-271), given the
fetched per-message responses: fold the batch callback over every
message, sort buckets by descending count, emit opportunities. -/
def scan_aggregate (responses : List (Option (List Header))) : List Opportunity :=
  emitOpps (sortByCountDesc (responses.foldl process_message []))

/-- A message counts toward aggregation exactly when it was fetched
without error and its extracted unsubscribe link starts with http. -/
def msgQualifies : Option (List Header) → Bool
  | none => false
  | some hs =>
    match api_get_unsubscribe_from_headers hs with
    | some l => strStarts l "http"
    | none => false

theorem process_message_skip (data : List (String × SenderEntry))
    (resp : Option (List Header)) (h : msgQualifies resp = false) :
    process_message data resp = data := by
  cases resp with
  | none => rfl
  | some hs =>
    cases hl : api_get_unsubscribe_from_headers hs with
    | none => simp [process_message, hl]
    | some l =>
      have h2 : strStarts l "http" = false := by
        simpa [msgQualifies, hl] using h
      simp [process_message, hl, h2]

/-- Invariant of the per-domain fold when every message has the same
sender domain d: the accumulator is empty with no qualifying message
seen, or a single bucket for d whose count equals the number of
qualifying messages seen, with a nonempty all-http link set. -/
def singleBucketInv (d : String) (acc : List (String × SenderEntry)) (c : Nat) : Prop :=
  (acc = [] ∧ c = 0) ∨
  (1 ≤ c ∧ ∃ e : SenderEntry, acc = [(d, e)] ∧ e.count = c ∧ e.links ≠ [] ∧
    ∀ l ∈ e.links, strStarts l "http" = true)

theorem bump_preserves_inv (d : String) (acc : List (String × SenderEntry)) (c : Nat)
    (link fv sj : String) (hlink : strStarts link "http" = true)
    (hinv : singleBucketInv d acc c) :
    singleBucketInv d (bump acc d link fv sj) (c + 1) := by
  rcases hinv with ⟨hacc, hc⟩ | ⟨hc, e, hacc, hcount, hne, hall⟩
  · subst hacc
    refine Or.inr ⟨by omega, ⟨1, [link], [sj], fv⟩, rfl, ?_, by simp,
      by simpa using hlink⟩
    show 1 = c + 1
    omega
  · subst hacc
    refine Or.inr ⟨by omega, ⟨e.count + 1, setAdd e.links link,
      if e.subjects.length < 3 then e.subjects ++ [sj] else e.subjects, fv⟩,
      by simp [bump], ?_, ?_, ?_⟩
    · show e.count + 1 = c + 1
      omega
    · show setAdd e.links link ≠ []
      rw [setAdd]
      by_cases hmem : link ∈ e.links
      · simpa [hmem] using hne
      · simp [hmem]
    · show ∀ l ∈ setAdd e.links link, strStarts l "http" = true
      intro l hl
      rw [setAdd] at hl
      by_cases hmem : link ∈ e.links
      · rw [if_pos hmem] at hl
        exact hall l hl
      · rw [if_neg hmem] at hl
        rcases List.mem_append.mp hl with h | h
        · exact hall l h
        · rcases List.mem_singleton.mp h with rfl
          exact hlink

theorem fold_single_domain (d : String) (responses : List (Option (List Header)))
    (hd : ∀ hs, some hs ∈ responses → (api_get_sender_info hs).2 = d)
    (acc : List (String × SenderEntry)) (c : Nat)
    (hinv : singleBucketInv d acc c) :
    singleBucketInv d (responses.foldl process_message acc)
      (c + responses.countP msgQualifies) := by
  induction responses generalizing acc c with
  | nil => simpa using hinv
  | cons r rest ih =>
    have hd' : ∀ hs, some hs ∈ rest → (api_get_sender_info hs).2 = d :=
      fun hs hh => hd hs (List.mem_cons_of_mem _ hh)
    cases hq : msgQualifies r with
    | false =>
      rw [List.foldl_cons, process_message_skip acc r hq, List.countP_cons,
        hq]
      simpa using ih hd' acc c hinv
    | true =>
      cases r with
      | none => rw [msgQualifies] at hq; cases hq
      | some hs =>
        have hlink : ∃ l, api_get_unsubscribe_from_headers hs = some l ∧
            strStarts l "http" = true := by
          rw [msgQualifies] at hq
          cases hl : api_get_unsubscribe_from_headers hs with
          | none => rw [hl] at hq; cases hq
          | some l => rw [hl] at hq; exact ⟨l, rfl, hq⟩
        obtain ⟨l, hl, hhttp⟩ := hlink
        have hstep : process_message acc (some hs)
            = bump acc d l (api_get_sender_info hs).1 (api_get_subject hs) := by
          simp only [process_message, hl]
          rw [if_pos hhttp, hd hs (by simp)]
        rw [List.foldl_cons, hstep, List.countP_cons, hq]
        have := ih hd' (bump acc d l (api_get_sender_info hs).1 (api_get_subject hs))
          (c + 1) (bump_preserves_inv d acc c l _ _ hhttp hinv)
        simpa [Nat.add_assoc, Nat.add_comm 1] using this

/-- C8: over any sequence of fetched messages all carrying the same
sender domain d, aggregation produces no opportunity when no message
yields an http link, and exactly one opportunity for d whose count is
the number M of messages with a discoverable http link otherwise;
messages without such a link (including mailto-only ones) never
increment any bucket. -/
theorem c8_single_domain_aggregation
    (responses : List (Option (List Header))) (d : String)
    (hd : ∀ hs, some hs ∈ responses → (api_get_sender_info hs).2 = d) :
    (responses.countP msgQualifies = 0 → scan_aggregate responses = [])
    ∧ (0 < responses.countP msgQualifies →
        ∃ fv link sjs, scan_aggregate responses
          = [⟨d, responses.countP msgQualifies, fv, link, sjs⟩]) := by
  have hinv := fold_single_domain d responses hd [] 0 (Or.inl ⟨rfl, rfl⟩)
  rw [Nat.zero_add] at hinv
  constructor
  · intro h0
    rcases hinv with ⟨hacc, _⟩ | ⟨hc, _⟩
    · rw [scan_aggregate, hacc]
      rfl
    · omega
  · intro hpos
    rcases hinv with ⟨_, hc⟩ | ⟨_, e, hacc, hcount, hne, hall⟩
    · omega
    · refine ⟨e.fromv, ?_, e.subjects, ?_⟩
      · exact e.links.headI
      · rw [scan_aggregate, hacc]
        have hfilter : e.links.filter (fun l => strStarts l "http") = e.links :=
          List.filter_eq_self.mpr hall
        cases hlinks : e.links with
        | nil => exact absurd hlinks hne
        | cons l ls =>
          rw [hlinks] at hfilter
          simp only [sortByCountDesc, List.foldl_cons, List.foldl_nil,
            insertByCountDesc, emitOpps, hlinks, hfilter]
          rw [hcount]
          simp [List.headI, hlinks]

/-- Concrete message set: two fetched messages from shop.example, of
which only the first carries an http unsubscribe link, and one failed
fetch. -/
def resp_shop : List (Option (List Header)) :=
  [some [⟨"From", "Shop <a@shop.example>"⟩, ⟨"Subject", "Sale"⟩,
         ⟨"List-Unsubscribe", "<https://shop.example/u>"⟩],
   some [⟨"From", "Shop <b@shop.example>"⟩, ⟨"Subject", "News"⟩],
   none]

theorem c8_single_domain_aggregation_witness :
    0 < resp_shop.countP msgQualifies ∧
    ∃ fv link sjs, scan_aggregate resp_shop
      = [⟨"shop.example", resp_shop.countP msgQualifies, fv, link, sjs⟩] := by
  refine ⟨by decide, ?_⟩
  refine (c8_single_domain_aggregation resp_shop "shop.example" ?_).2 (by decide)
  intro hs h
  simp only [resp_shop, List.mem_cons, List.not_mem_nil, or_false] at h
  rcases h with h | h | h
  · rw [Option.some.injEq] at h
    subst h
    decide
  · rw [Option.some.injEq] at h
    subst h
    decide
  · cases h

/-- The scan_status dict (gmail_api_unsubscribe.py line 46). -/
structure ScanState where
  progress : Nat
  message : String
  done : Bool
  error : Option String
deriving DecidableEq

/-- Environment of one scan run: the error returned by get_gmail_service
when credentials fail (line 179), and the per-message fetch responses of
the run (none = per-message exception in the batch callback).  The number
of listed messages is the length of this list. -/
structure ScanEnv where
  serviceError : Option String
  responses : List (Option (List Header))

/-- The batch_end values of the batch loop of lines 237-257: the loop
runs ceil(total/100) times, the k-th batch ending at min(k*100, total). -/
def batchEndsFrom : Nat → Nat → Nat → List Nat
  | 0, _, _ => []
  | n + 1, start, total => min (start + 100) total :: batchEndsFrom n (start + 100) total

/-- All batch_end values for a run over total messages. -/
def batchEnds (total : Nat) : List Nat := batchEndsFrom ((total + 99) / 100) 0 total

/-- The sequence of scan_status values published by one run of
scan_emails_api, in order (lines 175, 180, 183, 195, 198, 256-257, 273).
The progress of line 256 is int((batch_end / total) * 80) computed here
in exact arithmetic as the floor 80 * batch_end / total.  A service
error terminates the run with progress 0 (line 180); the uncaught
HttpError and Exception handlers of lines 275-278 publish progress 0 in
the same way. -/
def scanStatesList (env : ScanEnv) : List ScanState :=
  ⟨5, "Connecting to Gmail API...", false, none⟩ ::
  match env.serviceError with
  | some err => [⟨0, err, true, some err⟩]
  | none =>
    ⟨10, "Fetching email list...", false, none⟩ ::
    if env.responses.isEmpty then
      [⟨100, "No emails found", true, none⟩]
    else
      ⟨15, "Found " ++ toString env.responses.length ++ " emails, batch fetching...",
        false, none⟩ ::
      ((batchEnds env.responses.length).map (fun be =>
        ⟨15 + 80 * be / env.responses.length,
         "Batch fetched " ++ toString be ++ "/" ++ toString env.responses.length
           ++ " emails", false, none⟩))
      ++ [⟨100, "Done! Found " ++ toString (scan_aggregate env.responses).length
            ++ " senders", true, none⟩]

/-- scan_emails_api (lines 170-278) in terms of its two observable
outputs: the published state sequence and the final scan_results list,
which stays empty when the run terminates with an error. -/
def scan_emails_api (env : ScanEnv) : List ScanState × List Opportunity :=
  (scanStatesList env,
   match env.serviceError with
   | some _ => []
   | none => scan_aggregate env.responses)

theorem batchEndsFrom_chain (n start total : Nat) :
    List.Chain' (· ≤ ·) (batchEndsFrom n start total) := by
  induction n generalizing start with
  | zero => exact List.chain'_nil
  | succ n ih =>
    rw [batchEndsFrom, List.chain'_cons']
    refine ⟨?_, ih (start + 100)⟩
    intro y hy
    cases n with
    | zero => simp [batchEndsFrom] at hy
    | succ m =>
      rw [batchEndsFrom] at hy
      simp only [List.head?_cons, Option.mem_def, Option.some.injEq] at hy
      subst hy
      exact min_le_min (by omega) (le_refl total)

theorem batchEndsFrom_mem_le (n start total : Nat) :
    ∀ x ∈ batchEndsFrom n start total, x ≤ total := by
  induction n generalizing start with
  | zero => simp [batchEndsFrom]
  | succ n ih =>
    rw [batchEndsFrom]
    intro x hx
    rcases List.mem_cons.mp hx with h | h
    · subst h; exact min_le_right _ _
    · exact ih (start + 100) x h

/-- Concrete run environment with a failing credential step. -/
def env_err : ScanEnv := ⟨some "credentials.json not found", []⟩

/-- C7 counterexample: a run whose service acquisition fails publishes
the progress sequence 5, 0 - the terminal error state resets progress to
0, so the published progress values of an error-terminated run are not
monotonically non-decreasing. -/
theorem c7_counterexample_error_resets_progress :
    (scanStatesList env_err).map (fun st => st.progress) = [5, 0]
    ∧ ¬ List.Chain' (· ≤ ·) ((scanStatesList env_err).map (fun st => st.progress)) := by
  refine ⟨rfl, ?_⟩
  intro h
  rw [show (scanStatesList env_err).map (fun st => st.progress) = [5, 0] from rfl] at h
  exact absurd (List.chain'_cons.mp h).1 (by omega)

/-- C7 amended: over an error-free run the published progress values are
monotonically non-decreasing, and the full sequence is 5, 10, then
either the terminal 100 (no messages) or 15 followed by the per-batch
values 15 + floor(80 * batch_end / total) and the terminal 100.  A run
terminated by an error publishes a final progress of 0, which breaks
monotonicity (see the counterexample). -/
theorem c7_progress_monotone_error_free (env : ScanEnv)
    (h : env.serviceError = none) :
    List.Chain' (· ≤ ·) ((scanStatesList env).map (fun st => st.progress))
    ∧ (scanStatesList env).map (fun st => st.progress)
      = 5 :: 10 ::
        (if env.responses.isEmpty then [100]
         else 15 :: ((batchEnds env.responses.length).map
             (fun be => 15 + 80 * be / env.responses.length) ++ [100])) := by
  have hmap : (scanStatesList env).map (fun st => st.progress)
      = 5 :: 10 ::
        (if env.responses.isEmpty then [100]
         else 15 :: ((batchEnds env.responses.length).map
             (fun be => 15 + 80 * be / env.responses.length) ++ [100])) := by
    rw [scanStatesList, h]
    by_cases he : env.responses.isEmpty
    · simp [he]
    · simp [he, List.map_append, List.map_map, Function.comp]
  refine ⟨?_, hmap⟩
  rw [hmap]
  by_cases he : env.responses.isEmpty
  · rw [if_pos he]
    exact List.chain'_cons.mpr ⟨by omega,
      List.chain'_cons.mpr ⟨by omega, List.chain'_singleton _⟩⟩
  · rw [if_neg he]
    rw [List.chain'_cons, List.chain'_cons, List.chain'_cons']
    refine ⟨by omega, by omega, ?_, ?_⟩
    · intro y hy
      cases hb : (batchEnds env.responses.length).map
          (fun be => 15 + 80 * be / env.responses.length) with
      | nil =>
        rw [hb] at hy
        simp only [List.nil_append, List.head?_cons, Option.mem_def,
          Option.some.injEq] at hy
        omega
      | cons a l =>
        rw [hb] at hy
        simp only [List.cons_append, List.head?_cons, Option.mem_def,
          Option.some.injEq] at hy
        subst hy
        have : a ∈ (batchEnds env.responses.length).map
            (fun be => 15 + 80 * be / env.responses.length) := by
          rw [hb]; exact List.mem_cons_self _ _
        obtain ⟨be, _, hbe⟩ := List.mem_map.mp this
        rw [← hbe]
        exact Nat.le_add_right 15 _
    · rw [List.chain'_append]
      refine ⟨?_, List.chain'_singleton _, ?_⟩
      · rw [List.chain'_map]
        exact (batchEndsFrom_chain _ 0 _).imp
          (fun a b hab => by
            exact Nat.add_le_add_left (Nat.div_le_div_right
              (Nat.mul_le_mul_left 80 hab)) 15)
      · intro x hx y hy
        simp only [List.head?_cons, Option.mem_def, Option.some.injEq] at hy
        subst hy
        have hx2 : x ∈ (batchEnds env.responses.length).map
            (fun be => 15 + 80 * be / env.responses.length) := by
          obtain ⟨hne, hlast⟩ := List.mem_getLast?_eq_getLast hx
          rw [hlast]
          exact List.getLast_mem hne
        obtain ⟨be, hbe_mem, hbe⟩ := List.mem_map.mp hx2
        have hle : be ≤ env.responses.length :=
          batchEndsFrom_mem_le _ 0 _ be hbe_mem
        have hdiv : 80 * be / env.responses.length ≤ 80 := by
          apply Nat.div_le_of_le_mul'
          calc 80 * be ≤ 80 * env.responses.length := Nat.mul_le_mul_left 80 hle
          _ = env.responses.length * 80 := Nat.mul_comm _ _
        rw [← hbe]
        exact le_trans (Nat.add_le_add_left hdiv 15) (by norm_num)

/-- Concrete error-free run environment with two fetched messages. -/
def env_ok : ScanEnv := ⟨none, [none, none]⟩

theorem c7_progress_monotone_error_free_witness :
    List.Chain' (· ≤ ·) ((scanStatesList env_ok).map (fun st => st.progress)) :=
  (c7_progress_monotone_error_free env_ok rfl).1

end GmailCleaner
